import Mathlib

/-!
Shallow embedding of the ballot-buddy backend voting core.

The definitions below are translated from the JavaScript source:
  * `src/src/controllers/verification.controller.js` (requestOTP, confirmOTP)
  * the votes controller (`src/unnamed/part_005`: getBallot, castVote)
  * the Prisma schema (`src/backend/prisma/migrations/20251125193712_init/migration.sql`)

Timestamps are modelled as `Int` milliseconds since the epoch (JavaScript
`Date.getTime()`).  Database tables are lists of rows; Prisma `findUnique` /
`findFirst` / `findMany` become `List.find?` / a fold taking the latest row /
`List.filter`.  Randomness (the 6-digit OTP, the 32-byte ballot token) and
freshly generated row ids are passed in as parameters, resolving the
nondeterminism explicitly.  bcrypt is modelled as a deterministic one-way hash
together with its compare; the claims depend only on `compare c (hash c) = true`
and on hashes being compared against the stored string.
-/

/-- Row of the `eligible_voters` table. -/
structure EligibleVoter where
  id : Nat
  regNo : String
  name : String
  email : Option String
  phone : Option String
  status : String
deriving DecidableEq, Repr

/-- Row of the `verifications` table. -/
structure Verification where
  id : Nat
  voterId : Nat
  method : String
  otpHash : String
  issuedAt : Int
  expiresAt : Int
  verifiedAt : Option Int
  ballotToken : Option String
  consumedAt : Option Int
deriving DecidableEq, Repr

/-- Row of the `ballots` table. -/
structure Ballot where
  id : Nat
  voterId : Nat
  token : String
  status : String
  issuedAt : Int
  consumedAt : Option Int
deriving DecidableEq, Repr

/-- Row of the `positions` table (only the fields the voting core reads). -/
structure Position where
  id : Nat
  name : String
  votingOpens : Int
  votingCloses : Int
deriving DecidableEq, Repr

/-- Row of the `candidates` table (only the fields the voting core reads). -/
structure Candidate where
  id : Nat
  positionId : Nat
  name : String
  status : String
deriving DecidableEq, Repr

/-- Row of the `votes` table.  Per the migration SQL it has exactly the columns
`id`, `ballot_id`, `position_id`, `candidate_id`, `cast_at`: there is no
voter-identifying column. -/
structure Vote where
  id : Nat
  ballotId : Nat
  positionId : Nat
  candidateId : Nat
  castAt : Int
deriving DecidableEq, Repr

/-- The persistent state the voting core reads and writes. -/
structure DB where
  voters : List EligibleVoter
  verifications : List Verification
  ballots : List Ballot
  positions : List Position
  candidates : List Candidate
  votes : List Vote
deriving DecidableEq, Repr

/-- JavaScript truthiness of an optional string field: `undefined`, `null` and
the empty string are falsy. -/
def isFalsy : Option String → Bool
  | none => true
  | some s => s.isEmpty

/-- Model of `bcrypt.hash(code, 10)`: a deterministic injective one-way hash. -/
def bcryptHash (code : String) : String := "bcrypt$" ++ code

/-- Model of `bcrypt.compare(code, hash)`. -/
def bcryptCompare (code h : String) : Bool := h == bcryptHash code

/-- Model of `prisma.verification.findFirst` with a `where` filter and
`orderBy: issuedAt desc`: among the rows matching the filter, the one with the
greatest `issuedAt` (first encountered on ties). -/
def findLatestVerification (p : Verification → Bool) (vs : List Verification) :
    Option Verification :=
  (vs.filter p).foldl
    (fun acc v =>
      match acc with
      | none => some v
      | some a => if v.issuedAt > a.issuedAt then some v else some a)
    none

/-- Model of JavaScript `String.prototype.toUpperCase()` on the registration
number (character-wise upper-casing). -/
def toUpperCase (s : String) : String := String.mk (s.data.map Char.toUpper)

/-- The rate-limit lookup filter of `requestOTP` (verification.controller.js
lines 57-68): same voter, issued within the last 60 seconds, not yet
verified. -/
def rateFilter (voterId : Nat) (now : Int) (v : Verification) : Bool :=
  v.voterId == voterId && decide (v.issuedAt ≥ now - 60000) && v.verifiedAt.isNone

/-- The OTP lookup filter of `confirmOTP` (verification.controller.js lines
214-226): same voter, `verifiedAt` unset, `consumedAt` unset, not expired. -/
def confirmFilter (voterId : Nat) (now : Int) (v : Verification) : Bool :=
  v.voterId == voterId && v.verifiedAt.isNone && v.consumedAt.isNone &&
    decide (v.expiresAt ≥ now)

/-- Responses of `POST /verify/request-otp`, one constructor per `return` site
of `requestOTP`. -/
inductive OTPResponse where
  | regNoRequired
  | voterNotFound
  | notEligible
  | alreadyVoted
  | rateLimited (retryAfter : Nat)
  | emailMissing
  | phoneMissing
  | success (expiresIn : Nat)
deriving DecidableEq, Repr

/-- HTTP status attached to each `requestOTP` response in the source. -/
def OTPResponse.statusCode : OTPResponse → Nat
  | .regNoRequired => 400
  | .voterNotFound => 404
  | .notEligible => 400
  | .alreadyVoted => 400
  | .rateLimited _ => 429
  | .emailMissing => 400
  | .phoneMissing => 400
  | .success _ => 200

/-- Embedding of `requestOTP` (verification.controller.js lines 19-184).
`otp` is the random 6-digit code `crypto.randomInt` produced and `newVerifId`
the id Prisma would mint for the created row.  The email/SMS dispatch and the
audit logging touch none of the modelled tables and are omitted. -/
def requestOTP (db : DB) (regNo : Option String) (now : Int) (otp : String)
    (newVerifId : Nat) : OTPResponse × DB :=
  match regNo with
  | none => (.regNoRequired, db)
  | some rn =>
    if rn.isEmpty then (.regNoRequired, db)
    else
      match db.voters.find? (fun v => v.regNo == toUpperCase rn) with
      | none => (.voterNotFound, db)
      | some voter =>
        if voter.status ≠ "ELIGIBLE" then (.notEligible, db)
        else if (db.ballots.find?
            (fun b => b.voterId == voter.id && b.status == "CONSUMED")).isSome then
          (.alreadyVoted, db)
        else
          match findLatestVerification (rateFilter voter.id now) db.verifications with
          | some recent =>
            (.rateLimited (((60000 - (now - recent.issuedAt)).toNat + 999) / 1000), db)
          | none =>
            if isFalsy voter.email then (.emailMissing, db)
            else if isFalsy voter.phone then (.phoneMissing, db)
            else
              let verification : Verification :=
                { id := newVerifId
                  voterId := voter.id
                  method := "both"
                  otpHash := bcryptHash otp
                  issuedAt := now
                  expiresAt := now + 300000
                  verifiedAt := none
                  ballotToken := none
                  consumedAt := none }
              (.success 300, { db with verifications := db.verifications ++ [verification] })

/-- Responses of `POST /verify/confirm`, one constructor per `return` site of
`confirmOTP`. -/
inductive ConfirmResponse where
  | inputRequired
  | voterNotFound
  | noValidOTP
  | invalidOTP
  | alreadyVoted
  | success (ballotToken : String)
deriving DecidableEq, Repr

/-- HTTP status attached to each `confirmOTP` response in the source. -/
def ConfirmResponse.statusCode : ConfirmResponse → Nat
  | .inputRequired => 400
  | .voterNotFound => 404
  | .noValidOTP => 400
  | .invalidOTP => 401
  | .alreadyVoted => 400
  | .success _ => 200

/-- Whether a `confirmOTP` response is the success response carrying a ballot
token. -/
def ConfirmResponse.isSuccess : ConfirmResponse → Bool
  | .success _ => true
  | _ => false

/-- Embedding of `confirmOTP` (verification.controller.js lines 196-315).
`ballotToken` is the random token `crypto.randomBytes(32)` produced and
`newBallotId` the id Prisma would mint for the ballot row.  The audit-log
writes touch none of the modelled tables and are omitted. -/
def confirmOTP (db : DB) (regNo otp : Option String) (now : Int)
    (ballotToken : String) (newBallotId : Nat) : ConfirmResponse × DB :=
  match regNo, otp with
  | some rn, some code =>
    if rn.isEmpty || code.isEmpty then (.inputRequired, db)
    else
      match db.voters.find? (fun v => v.regNo == toUpperCase rn) with
      | none => (.voterNotFound, db)
      | some voter =>
        match findLatestVerification (confirmFilter voter.id now) db.verifications with
        | none => (.noValidOTP, db)
        | some verification =>
          if !bcryptCompare code verification.otpHash then (.invalidOTP, db)
          else if (db.ballots.find?
              (fun b => b.voterId == voter.id && b.status == "CONSUMED")).isSome then
            (.alreadyVoted, db)
          else
            let db1 := { db with verifications := db.verifications.map fun (v : Verification) =>
                if v.id == verification.id then { v with verifiedAt := some now } else v }
            let ballot : Ballot :=
              { id := newBallotId
                voterId := voter.id
                token := ballotToken
                status := "ACTIVE"
                issuedAt := now
                consumedAt := none }
            let db2 := { db1 with ballots := db1.ballots ++ [ballot] }
            let db3 := { db2 with verifications := db2.verifications.map fun (v : Verification) =>
                if v.id == verification.id then { v with ballotToken := some ballotToken } else v }
            (.success ballotToken, db3)
  | _, _ => (.inputRequired, db)

/-- The voting-window openness test as written in `getBallot` (votes controller,
the Prisma query at lines 99-111: `votingOpens lte now`, `votingCloses gte
now`; the same comparison appears in the debug loop at line 87). -/
def getBallot_isOpen (p : Position) (now : Int) : Bool :=
  decide (p.votingOpens ≤ now) && decide (p.votingCloses ≥ now)

/-- The voting-window openness test as written in `castVote` (votes controller,
the Prisma query at lines 248-260 and the `closedPositions` filter at line
277). -/
def castVote_isOpen (p : Position) (now : Int) : Bool :=
  decide (p.votingOpens ≤ now) && decide (p.votingCloses ≥ now)

/-- Responses of `GET /vote/ballot`, one constructor per `return` site of
`getBallot`. -/
inductive BallotResponse where
  | tokenRequired
  | invalidToken
  | alreadyUsed
  | ok (positions : List Position) (candidates : List Candidate)
deriving DecidableEq, Repr

/-- Embedding of `getBallot` (votes controller lines 27-196).  The debug
`console.log` passes and the `orderBy: name` presentation order are omitted;
the function performs no writes. -/
def getBallot (db : DB) (token : Option String) (now : Int) : BallotResponse :=
  match token with
  | none => .tokenRequired
  | some tok =>
    if tok.isEmpty then .tokenRequired
    else
      match db.ballots.find? (fun b => b.token == tok) with
      | none => .invalidToken
      | some ballot =>
        if ballot.status == "CONSUMED" then .alreadyUsed
        else
          let positions := db.positions.filter (fun p => getBallot_isOpen p now)
          let positionIds := positions.map (fun p => p.id)
          let candidates := db.candidates.filter
            (fun c => positionIds.contains c.positionId && c.status == "APPROVED")
          .ok positions candidates

/-- One element of the `votes` array of a `POST /vote` body. -/
structure Selection where
  positionId : Nat
  candidateId : Nat
deriving DecidableEq, Repr

/-- Responses of `POST /vote`, one constructor per `return` site of
`castVote`.  `positionsNotOpen` carries the ids of the `closedPositions`
reported in the response body. -/
inductive VoteResponse where
  | tokenRequired
  | votesRequired
  | invalidToken
  | alreadyUsed
  | positionsNotOpen (closedPositions : List Nat)
  | invalidCandidates
  | duplicatePosition
  | alreadyVotedSome
  | success (votes : Nat)
deriving DecidableEq, Repr

/-- HTTP status attached to each `castVote` response in the source. -/
def VoteResponse.statusCode : VoteResponse → Nat
  | .tokenRequired => 400
  | .votesRequired => 400
  | .invalidToken => 404
  | .alreadyUsed => 400
  | .positionsNotOpen _ => 400
  | .invalidCandidates => 400
  | .duplicatePosition => 400
  | .alreadyVotedSome => 400
  | .success _ => 200

/-- The validation phase of `castVote` (votes controller lines 204-338), in
source order: token present, votes non-empty, ballot exists, ballot not
CONSUMED, all selected position ids resolve to positions whose window is open
(a Prisma `id in [...]` query returns each table row at most once, so
duplicate ids in the selection shrink the count), all selected candidate ids
resolve to APPROVED candidates, no duplicate position id, no pre-existing vote
of this ballot on a selected position.  Returns the resolved ballot on
success.  No branch writes to the database. -/
def castVoteValidate (db : DB) (token : Option String) (votes : List Selection)
    (now : Int) : Except VoteResponse Ballot :=
  match token with
  | none => .error .tokenRequired
  | some tok =>
    if tok.isEmpty then .error .tokenRequired
    else if votes.isEmpty then .error .votesRequired
    else
      match db.ballots.find? (fun b => b.token == tok) with
      | none => .error .invalidToken
      | some ballot =>
        if ballot.status == "CONSUMED" then .error .alreadyUsed
        else
          let posIds := votes.map (fun v => v.positionId)
          let openPositions := db.positions.filter
            (fun p => posIds.contains p.id && castVote_isOpen p now)
          if openPositions.length ≠ votes.length then
            let allPositions := db.positions.filter (fun p => posIds.contains p.id)
            let closed := allPositions.filter (fun p => !castVote_isOpen p now)
            .error (.positionsNotOpen (closed.map (fun p => p.id)))
          else
            let candidateIds := votes.map (fun v => v.candidateId)
            let approved := db.candidates.filter
              (fun c => candidateIds.contains c.id && c.status == "APPROVED")
            if approved.length ≠ votes.length then .error .invalidCandidates
            else if posIds.dedup.length ≠ posIds.length then .error .duplicatePosition
            else
              let existing := db.votes.filter
                (fun v => v.ballotId == ballot.id && posIds.contains v.positionId)
              if !existing.isEmpty then .error .alreadyVotedSome
              else .ok ballot

/-- The Vote rows `prisma.vote.create` builds inside the `$transaction` (votes
controller lines 341-351): each row holds the ballot id, the selected position
and candidate ids, and the `cast_at` default timestamp — and nothing else.
`firstVoteId` models the ids Prisma mints for the new rows. -/
def mkVoteRows (ballotId : Nat) (votes : List Selection) (now : Int)
    (firstVoteId : Nat) : List Vote :=
  votes.enum.map fun (iv : Nat × Selection) =>
    { id := firstVoteId + iv.1
      ballotId := ballotId
      positionId := iv.2.positionId
      candidateId := iv.2.candidateId
      castAt := now }

/-- First write of `castVote` after validation: the `prisma.$transaction` that
inserts one Vote row per selection (votes controller lines 341-351).  The
transaction is atomic, so it is one state transformer. -/
def insertVotes (db : DB) (ballotId : Nat) (votes : List Selection) (now : Int)
    (firstVoteId : Nat) : DB :=
  { db with votes := db.votes ++ mkVoteRows ballotId votes now firstVoteId }

/-- Second write of `castVote` after validation: the separate
`prisma.ballot.update` that marks the ballot CONSUMED with a consumption
timestamp (votes controller lines 354-360).  In the source this update is NOT
part of the `$transaction` above. -/
def consumeBallot (db : DB) (ballotId : Nat) (now : Int) : DB :=
  { db with ballots := db.ballots.map fun (b : Ballot) =>
      if b.id == ballotId then { b with status := "CONSUMED", consumedAt := some now } else b }

/-- Embedding of a complete, failure-free run of `castVote` (votes controller
lines 202-388): validate, then perform both writes in order.  The audit-log
write touches none of the modelled tables and is omitted. -/
def castVote (db : DB) (token : Option String) (votes : List Selection)
    (now : Int) (firstVoteId : Nat) : VoteResponse × DB :=
  match castVoteValidate db token votes now with
  | .error r => (r, db)
  | .ok ballot =>
    let db1 := insertVotes db ballot.id votes now firstVoteId
    let db2 := consumeBallot db1 ballot.id now
    (.success (mkVoteRows ballot.id votes now firstVoteId).length, db2)

/-- The database states reachable from one `castVote` request when the request
may fail (crash, thrown database error) between any two of its writes.  After
validation the source performs two separate awaited writes — the vote-insert
`$transaction` and then the ballot update — so execution can stop after any
prefix of them. -/
def castVoteReachable (db : DB) (token : Option String) (votes : List Selection)
    (now : Int) (firstVoteId : Nat) : List DB :=
  match castVoteValidate db token votes now with
  | .error _ => [db]
  | .ok ballot =>
    [db,
     insertVotes db ballot.id votes now firstVoteId,
     consumeBallot (insertVotes db ballot.id votes now firstVoteId) ballot.id now]

/-- Auxiliary: the latest-row fold keeps `some rec` when every remaining row
equals `rec`. -/
theorem foldlLatest_const (rec : Verification) (l : List Verification)
    (h : ∀ w ∈ l, w = rec) :
    l.foldl
      (fun acc v =>
        match acc with
        | none => some v
        | some a => if v.issuedAt > a.issuedAt then some v else some a)
      (some rec) = some rec := by
  induction l with
  | nil => rfl
  | cons x xs ih =>
    have hx : x = rec := h x (by simp)
    subst hx
    simp only [List.foldl_cons, gt_iff_lt, lt_self_iff_false, if_false]
    exact ih fun w hw => h w (List.mem_cons_of_mem _ hw)

/-- A `findFirst` lookup over rows none of which match returns nothing. -/
theorem findLatestVerification_eq_none (p : Verification → Bool)
    (l : List Verification) (h : ∀ w ∈ l, p w = false) :
    findLatestVerification p l = none := by
  unfold findLatestVerification
  have : l.filter p = [] := by
    rw [List.filter_eq_nil_iff]
    intro a ha
    simp [h a ha]
  rw [this]
  rfl

/-- A `findFirst` lookup whose only matching row is `rec` returns `rec`. -/
theorem findLatestVerification_unique (p : Verification → Bool)
    (l : List Verification) (rec : Verification) (hrec : rec ∈ l)
    (hp : p rec = true) (huniq : ∀ w ∈ l, p w = true → w = rec) :
    findLatestVerification p l = some rec := by
  have hfilter : ∀ w ∈ l.filter p, w = rec := by
    intro w hw
    exact huniq w (List.mem_filter.1 hw).1 (List.mem_filter.1 hw).2
  have hmem : rec ∈ l.filter p := List.mem_filter.2 ⟨hrec, hp⟩
  unfold findLatestVerification
  cases hl : l.filter p with
  | nil => rw [hl] at hmem; cases hmem
  | cons x xs =>
    rw [hl] at hfilter
    have hx : x = rec := hfilter x (by simp)
    subst hx
    simp only [List.foldl_cons]
    exact foldlLatest_const x xs fun w hw => hfilter w (List.mem_cons_of_mem _ hw)

/-- A table whose key column is duplicate-free yields strictly fewer rows on an
`id in ids` filter than `ids` has entries, whenever `ids` itself contains a
duplicate.  This is the arithmetic fact behind the dead duplicate-position
check in `castVote`. -/
theorem length_filter_lt_of_dup (tbl : List Position) (ids : List Nat)
    (hN : (tbl.map Position.id).Nodup) (hdup : ¬ ids.Nodup) (q : Position → Bool)
    (hq : ∀ p, q p = true → p.id ∈ ids) :
    (tbl.filter q).length < ids.length := by
  have hsubl : List.Sublist ((tbl.filter q).map Position.id) (tbl.map Position.id) :=
    (tbl.filter_sublist (p := q)).map Position.id
  have hnodup : ((tbl.filter q).map Position.id).Nodup := hN.sublist hsubl
  have hsubset : (tbl.filter q).map Position.id ⊆ ids.dedup := by
    intro x hx
    rcases List.mem_map.1 hx with ⟨p, hpmem, rfl⟩
    exact List.mem_dedup.2 (hq p (List.mem_filter.1 hpmem).2)
  have hle : ((tbl.filter q).map Position.id).length ≤ ids.dedup.length :=
    (hnodup.subperm hsubset).length_le
  have hlt : ids.dedup.length < ids.length := by
    rcases Nat.lt_or_ge ids.dedup.length ids.length with h | h
    · exact h
    · exfalso
      have heq : ids.dedup.length = ids.length :=
        Nat.le_antisymm ids.dedup_sublist.length_le h
      exact hdup (List.dedup_eq_self.1 (ids.dedup_sublist.eq_of_length heq))
  calc (tbl.filter q).length = ((tbl.filter q).map Position.id).length :=
        (List.length_map _ _).symm
    _ ≤ ids.dedup.length := hle
    _ < ids.length := hlt

/-- C5: the voting-window openness test is the inclusive-both-ends comparison
`votingOpens ≤ now ≤ votingCloses`, and the predicate `getBallot` uses to
filter the positions exposed to a ballot holder is extensionally equal to the
predicate `castVote` uses to re-validate each selected position: for every
position and every instant the two checks agree. -/
theorem window_predicates_agree (p : Position) (now : Int) :
    getBallot_isOpen p now = castVote_isOpen p now ∧
    (castVote_isOpen p now = true ↔ p.votingOpens ≤ now ∧ now ≤ p.votingCloses) := by
  refine ⟨rfl, ?_⟩
  simp [castVote_isOpen, ge_iff_le]

/-- C4: a cast-vote request whose token resolves to a ballot already CONSUMED
is rejected with the 400 "already used" error and the database is unchanged —
zero new Vote rows, and a second submission is rejected rather than silently
accepted. -/
theorem castVote_consumed_rejected (db : DB) (tok : String) (b : Ballot)
    (votes : List Selection) (now : Int) (fid : Nat)
    (htok : tok.isEmpty = false)
    (hne : votes.isEmpty = false)
    (hfind : db.ballots.find? (fun x => x.token == tok) = some b)
    (hstatus : b.status = "CONSUMED") :
    castVote db (some tok) votes now fid = (.alreadyUsed, db) ∧
    VoteResponse.statusCode .alreadyUsed = 400 := by
  refine ⟨?_, rfl⟩
  unfold castVote castVoteValidate
  simp [htok, hne, hfind, hstatus]

/-- Closed instance of `castVote_consumed_rejected`: one CONSUMED ballot, one
selection. -/
theorem castVote_consumed_rejected_witness :
    castVote
      { voters := [], verifications := [],
        ballots := [{ id := 1, voterId := 1, token := "T", status := "CONSUMED",
                      issuedAt := 0, consumedAt := some 5 }],
        positions := [{ id := 1, name := "P1", votingOpens := 0, votingCloses := 100 }],
        candidates := [{ id := 1, positionId := 1, name := "C1", status := "APPROVED" }],
        votes := [] }
      (some "T") [⟨1, 1⟩] 50 7 =
    (.alreadyUsed,
      { voters := [], verifications := [],
        ballots := [{ id := 1, voterId := 1, token := "T", status := "CONSUMED",
                      issuedAt := 0, consumedAt := some 5 }],
        positions := [{ id := 1, name := "P1", votingOpens := 0, votingCloses := 100 }],
        candidates := [{ id := 1, positionId := 1, name := "C1", status := "APPROVED" }],
        votes := [] }) :=
  (castVote_consumed_rejected _ "T"
    { id := 1, voterId := 1, token := "T", status := "CONSUMED",
      issuedAt := 0, consumedAt := some 5 }
    [⟨1, 1⟩] 50 7 (by decide) (by decide) (by decide) (by decide)).1

/-- Concrete database for the atomicity analysis of `castVote`: one ACTIVE
ballot with token "T", one position open at instant 50, one approved
candidate. -/
def exC1db : DB :=
  { voters := [{ id := 1, regNo := "REG001", name := "A",
                 email := some "a@x.test", phone := some "100", status := "ELIGIBLE" }]
    verifications := []
    ballots := [{ id := 1, voterId := 1, token := "T", status := "ACTIVE",
                  issuedAt := 0, consumedAt := none }]
    positions := [{ id := 1, name := "P1", votingOpens := 0, votingCloses := 100 }]
    candidates := [{ id := 1, positionId := 1, name := "C1", status := "APPROVED" }]
    votes := [] }

/-- C1: refuted as stated.  In the source the vote inserts are wrapped in
`prisma.$transaction` but the ballot update to CONSUMED is a separate,
subsequent write outside that transaction, so the post-state in which every
Vote row of the attempt exists while the ballot is still ACTIVE is reachable
(a failure between the two writes leaves it behind).  This theorem evaluates
the embedding at a concrete valid request and exhibits that reachable state,
contradicting the all-or-nothing property. -/
theorem castVote_consume_not_atomic :
    insertVotes exC1db 1 [⟨1, 1⟩] 50 1 ∈ castVoteReachable exC1db (some "T") [⟨1, 1⟩] 50 1 ∧
    (insertVotes exC1db 1 [⟨1, 1⟩] 50 1).votes =
      exC1db.votes ++ mkVoteRows 1 [⟨1, 1⟩] 50 1 ∧
    (insertVotes exC1db 1 [⟨1, 1⟩] 50 1).votes ≠ [] ∧
    ∃ b ∈ (insertVotes exC1db 1 [⟨1, 1⟩] 50 1).ballots,
      b.token = "T" ∧ b.status = "ACTIVE" := by
  decide

/-- Concrete database for the duplicate-position analysis of `castVote`: one
ACTIVE ballot with token "T8", one position open at instant 50, two approved
candidates for it. -/
def exC8db : DB :=
  { voters := []
    verifications := []
    ballots := [{ id := 1, voterId := 1, token := "T8", status := "ACTIVE",
                  issuedAt := 0, consumedAt := none }]
    positions := [{ id := 1, name := "P1", votingOpens := 0, votingCloses := 100 }]
    candidates := [{ id := 1, positionId := 1, name := "C1", status := "APPROVED" },
                   { id := 3, positionId := 1, name := "C3", status := "APPROVED" }]
    votes := [] }

/-- C8: refuted as stated.  Submitting the same (open) position twice with two
approved candidates is rejected, but with the "Some positions are not open for
voting" error and an empty `closedPositions` list — not with the "multiple
votes for same position" error: the `id in [...]` position query returns each
row once, so the open-positions count can never equal the length of a batch
with duplicates, and the dedicated duplicate check further down is never
reached. -/
theorem castVote_duplicate_wrong_error :
    castVote exC8db (some "T8") [⟨1, 1⟩, ⟨1, 3⟩] 50 1 = (.positionsNotOpen [], exC8db) ∧
    VoteResponse.positionsNotOpen [] ≠ VoteResponse.duplicatePosition := by
  decide

/-- C8 (amended): every cast-vote request whose selection list repeats a
positionId is rejected before any database write — the state, and with it the
ACTIVE status of the ballot and the set of Vote rows, is unchanged — but the error
returned is `positionsNotOpen` ("Some positions are not open for voting"),
because with a duplicate-free positions table the open-positions count is
strictly below the batch length. -/
theorem castVote_duplicate_rejected (db : DB) (tok : String) (b : Ballot)
    (votes : List Selection) (now : Int) (fid : Nat)
    (htok : tok.isEmpty = false)
    (hfind : db.ballots.find? (fun x => x.token == tok) = some b)
    (hactive : b.status ≠ "CONSUMED")
    (hids : (db.positions.map Position.id).Nodup)
    (hdup : ¬ (votes.map Selection.positionId).Nodup) :
    ∃ closed, castVote db (some tok) votes now fid = (.positionsNotOpen closed, db) := by
  have hne : votes.isEmpty = false := by
    cases votes with
    | nil => exact absurd List.nodup_nil hdup
    | cons x xs => rfl
  have hlt : (db.positions.filter
      (fun p => (votes.map Selection.positionId).contains p.id && castVote_isOpen p now)).length
      < (votes.map Selection.positionId).length := by
    refine length_filter_lt_of_dup db.positions (votes.map Selection.positionId) hids hdup _ ?_
    intro p hp
    rw [Bool.and_eq_true] at hp
    exact List.elem_iff.1 hp.1
  have hlen : (db.positions.filter
      (fun p => (votes.map Selection.positionId).contains p.id && castVote_isOpen p now)).length
      ≠ votes.length := by
    rw [List.length_map] at hlt
    omega
  refine ⟨((db.positions.filter
      (fun p => (votes.map Selection.positionId).contains p.id)).filter
        (fun p => !castVote_isOpen p now)).map (fun p => p.id), ?_⟩
  unfold castVote castVoteValidate
  simp only [htok, hne, hfind, Bool.false_eq_true, if_false]
  rw [if_neg (by simp [hactive])]
  rw [if_pos hlen]

/-- Closed instance of `castVote_duplicate_rejected` at the concrete
duplicate-position request. -/
theorem castVote_duplicate_rejected_witness :
    ∃ closed, castVote exC8db (some "T8") [⟨1, 1⟩, ⟨1, 3⟩] 50 1 =
      (.positionsNotOpen closed, exC8db) :=
  castVote_duplicate_rejected exC8db "T8"
    { id := 1, voterId := 1, token := "T8", status := "ACTIVE",
      issuedAt := 0, consumedAt := none }
    [⟨1, 1⟩, ⟨1, 3⟩] 50 1 (by decide) (by decide) (by decide) (by decide) (by decide)

/-- Auxiliary for the consumed-ballot guarantee: whatever the OTP lookup and
hash comparison yield, `confirmOTP` for a voter holding a CONSUMED ballot
never succeeds and never writes: every path ends in `inputRequired`,
`noValidOTP`, `invalidOTP` or `alreadyVoted`, each leaving the state
untouched. -/
theorem confirmOTP_blocked_of_consumed (db : DB) (rn code : String)
    (voter : EligibleVoter) (now : Int) (tok : String) (bid : Nat)
    (hv : db.voters.find? (fun v => v.regNo == toUpperCase rn) = some voter)
    (hsome : (db.ballots.find?
      (fun x => x.voterId == voter.id && x.status == "CONSUMED")).isSome = true) :
    (confirmOTP db (some rn) (some code) now tok bid).1.isSuccess = false ∧
    (confirmOTP db (some rn) (some code) now tok bid).2 = db := by
  unfold confirmOTP
  by_cases h1 : (rn.isEmpty || code.isEmpty) = true
  · simp [h1, ConfirmResponse.isSuccess]
  · simp only [Bool.not_eq_true] at h1
    simp only [h1, Bool.false_eq_true, if_false, hv]
    cases hfl : findLatestVerification (confirmFilter voter.id now) db.verifications with
    | none => simp [ConfirmResponse.isSuccess]
    | some verification =>
      by_cases h2 : bcryptCompare code verification.otpHash = true
      · simp [h2, hsome, ConfirmResponse.isSuccess]
      · simp only [Bool.not_eq_true] at h2
        simp [h2, ConfirmResponse.isSuccess]

/-- C2: once any ballot of a voter has status CONSUMED, a further OTP request
by that voter is refused with the 400 "already voted" error and changes
nothing, and a further OTP confirmation (with any code, at any time) never
succeeds and changes nothing, so no further ballot can be minted for that
voter. -/
theorem consumed_ballot_blocks_new_cycle (db : DB) (rn : String)
    (voter : EligibleVoter) (b : Ballot) (now : Int) (otp : String) (nid : Nat)
    (hrn : rn.isEmpty = false)
    (hv : db.voters.find? (fun v => v.regNo == toUpperCase rn) = some voter)
    (he : voter.status = "ELIGIBLE")
    (hb : b ∈ db.ballots) (hbv : b.voterId = voter.id) (hbs : b.status = "CONSUMED") :
    requestOTP db (some rn) now otp nid = (.alreadyVoted, db) ∧
    OTPResponse.statusCode .alreadyVoted = 400 ∧
    (∀ code now2 tok bid,
      (confirmOTP db (some rn) (some code) now2 tok bid).1.isSuccess = false ∧
      (confirmOTP db (some rn) (some code) now2 tok bid).2 = db) ∧
    ∀ code now2 tok bid v, code.isEmpty = false →
      findLatestVerification (confirmFilter voter.id now2) db.verifications = some v →
      bcryptCompare code v.otpHash = true →
      (confirmOTP db (some rn) (some code) now2 tok bid).1 = .alreadyVoted := by
  have hsome : (db.ballots.find?
      (fun x => x.voterId == voter.id && x.status == "CONSUMED")).isSome = true := by
    rw [List.find?_isSome]
    exact ⟨b, hb, by simp [hbv, hbs]⟩
  refine ⟨?_, rfl, fun code now2 tok bid =>
    confirmOTP_blocked_of_consumed db rn code voter now2 tok bid hv hsome, ?_⟩
  · unfold requestOTP
    simp [hrn, hv, he, hsome]
  · intro code now2 tok bid v hcode hfl hcmp
    have hone : (rn.isEmpty || code.isEmpty) = false := by simp [hrn, hcode]
    simp [confirmOTP, hone, hv, hfl, hcmp, hsome]

/-- Concrete database for the consumed-ballot guarantee: one eligible voter
REG001 who already holds a CONSUMED ballot. -/
def exC2db : DB :=
  { voters := [{ id := 1, regNo := "REG001", name := "A",
                 email := some "a@x.test", phone := some "100", status := "ELIGIBLE" }]
    verifications := []
    ballots := [{ id := 1, voterId := 1, token := "U", status := "CONSUMED",
                  issuedAt := 0, consumedAt := some 5 }]
    positions := []
    candidates := []
    votes := [] }

/-- Closed instance of `consumed_ballot_blocks_new_cycle`. -/
theorem consumed_ballot_blocks_new_cycle_witness :
    requestOTP exC2db (some "REG001") 1000 "123456" 7 = (.alreadyVoted, exC2db) ∧
    (confirmOTP exC2db (some "REG001") (some "123456") 1000 "tok" 9).1.isSuccess = false := by
  have h := consumed_ballot_blocks_new_cycle exC2db "REG001"
    { id := 1, regNo := "REG001", name := "A",
      email := some "a@x.test", phone := some "100", status := "ELIGIBLE" }
    { id := 1, voterId := 1, token := "U", status := "CONSUMED",
      issuedAt := 0, consumedAt := some 5 }
    1000 "123456" 7 (by decide) (by decide) (by decide) (by decide) (by decide) (by decide)
  exact ⟨h.1, (h.2.2.1 "123456" 1000 "tok" 9).1⟩

/-- Auxiliary: the latest-row fold starting from `some acc` returns `acc` or a
row of the remaining list. -/
theorem foldlLatest_mem (l : List Verification) (acc v : Verification)
    (h : l.foldl
      (fun acc v =>
        match acc with
        | none => some v
        | some a => if v.issuedAt > a.issuedAt then some v else some a)
      (some acc) = some v) : v = acc ∨ v ∈ l := by
  induction l generalizing acc with
  | nil =>
    simp only [List.foldl_nil, Option.some.injEq] at h
    exact Or.inl h.symm
  | cons x xs ih =>
    simp only [List.foldl_cons] at h
    by_cases hc : x.issuedAt > acc.issuedAt
    · rw [if_pos hc] at h
      rcases ih x h with h1 | h1
      · exact Or.inr (by simp [h1])
      · exact Or.inr (List.mem_cons_of_mem _ h1)
    · rw [if_neg hc] at h
      rcases ih acc h with h1 | h1
      · exact Or.inl h1
      · exact Or.inr (List.mem_cons_of_mem _ h1)

/-- A `findFirst` lookup that returns a row returns a row of the table, and
that row matches the filter. -/
theorem findLatestVerification_mem (p : Verification → Bool) (l : List Verification)
    (v : Verification) (h : findLatestVerification p l = some v) :
    v ∈ l ∧ p v = true := by
  unfold findLatestVerification at h
  cases hl : l.filter p with
  | nil => rw [hl] at h; simp at h
  | cons x xs =>
    rw [hl] at h
    simp only [List.foldl_cons] at h
    have hv : v = x ∨ v ∈ xs := foldlLatest_mem xs x v h
    have hmem : v ∈ l.filter p := by
      rw [hl]
      rcases hv with rfl | hv
      · simp
      · exact List.mem_cons_of_mem _ hv
    exact ⟨(List.mem_filter.1 hmem).1, (List.mem_filter.1 hmem).2⟩

/-- C3: with a fresh, unexpired, matching OTP and no consumed ballot, the
first confirmation succeeds — it sets `verifiedAt`, links the ballot token
onto the verification and returns the token — and a second confirmation with
the same registration number and code then fails with the 400 "No valid OTP
found" error, because the lookup only selects verifications with `verifiedAt`
unset, `consumedAt` unset and `expiresAt` not in the past, and the first call
has set `verifiedAt` on the only candidate row. -/
theorem confirmOTP_succeeds_exactly_once (db : DB) (rn otp : String)
    (voter : EligibleVoter) (v : Verification)
    (now1 now2 : Int) (tok tok2 : String) (bid bid2 : Nat)
    (hrn : rn.isEmpty = false) (hotp : otp.isEmpty = false)
    (hv : db.voters.find? (fun x => x.regNo == toUpperCase rn) = some voter)
    (hfl : findLatestVerification (confirmFilter voter.id now1) db.verifications = some v)
    (hhash : v.otpHash = bcryptHash otp)
    (hnob : ∀ b ∈ db.ballots, ¬(b.voterId = voter.id ∧ b.status = "CONSUMED"))
    (honly : ∀ w ∈ db.verifications, confirmFilter voter.id now2 w = true → w.id = v.id) :
    (confirmOTP db (some rn) (some otp) now1 tok bid).1 = .success tok ∧
    (∃ w ∈ (confirmOTP db (some rn) (some otp) now1 tok bid).2.verifications,
        w.id = v.id ∧ w.verifiedAt = some now1 ∧ w.ballotToken = some tok) ∧
    confirmOTP (confirmOTP db (some rn) (some otp) now1 tok bid).2
        (some rn) (some otp) now2 tok2 bid2 =
      (.noValidOTP, (confirmOTP db (some rn) (some otp) now1 tok bid).2) ∧
    ConfirmResponse.statusCode .noValidOTP = 400 := by
  have hone : (rn.isEmpty || otp.isEmpty) = false := by simp [hrn, hotp]
  have hcmp : bcryptCompare otp v.otpHash = true := by simp [bcryptCompare, hhash]
  have hnone : db.ballots.find? (fun x => x.voterId == voter.id && x.status == "CONSUMED")
      = none := by
    rw [List.find?_eq_none]
    intro x hx
    simp only [Bool.and_eq_true, beq_iff_eq, not_and]
    intro h1 h2
    exact hnob x hx ⟨h1, h2⟩
  have hrun : confirmOTP db (some rn) (some otp) now1 tok bid =
      (.success tok,
        { db with
          verifications := (db.verifications.map fun (w : Verification) =>
              if w.id == v.id then { w with verifiedAt := some now1 } else w).map
            fun (w : Verification) =>
              if w.id == v.id then { w with ballotToken := some tok } else w
          ballots := db.ballots ++
            [{ id := bid, voterId := voter.id, token := tok,
               status := "ACTIVE", issuedAt := now1, consumedAt := none }] }) := by
    simp only [confirmOTP, hone, hv, hfl, hcmp, hnone, Bool.false_eq_true, if_false,
      Bool.not_true, Option.isSome_none]
  have hvmem : v ∈ db.verifications := (findLatestVerification_mem _ _ _ hfl).1
  refine ⟨by rw [hrun], ?_, ?_, rfl⟩
  · rw [hrun]
    refine ⟨(fun (w : Verification) =>
        if w.id == v.id then { w with ballotToken := some tok } else w)
      ((fun (w : Verification) =>
        if w.id == v.id then { w with verifiedAt := some now1 } else w) v), ?_, ?_⟩
    · exact List.mem_map_of_mem _ (List.mem_map_of_mem _ hvmem)
    · simp
  · rw [hrun]
    have hnone2 : findLatestVerification (confirmFilter voter.id now2)
        ((db.verifications.map fun (w : Verification) =>
            if w.id == v.id then { w with verifiedAt := some now1 } else w).map
          fun (w : Verification) =>
            if w.id == v.id then { w with ballotToken := some tok } else w) = none := by
      apply findLatestVerification_eq_none
      intro w hw
      rcases List.mem_map.1 hw with ⟨w1, hw1, rfl⟩
      rcases List.mem_map.1 hw1 with ⟨u, hu, rfl⟩
      by_cases hid : (u.id == v.id) = true
      · simp [hid, confirmFilter]
      · simp only [Bool.not_eq_true] at hid
        simp only [hid, Bool.false_eq_true, if_false]
        by_contra hcon
        simp only [Bool.not_eq_false] at hcon
        have := honly u hu hcon
        simp [this] at hid
    simp only [confirmOTP, hone, hv, hnone2, Bool.false_eq_true, if_false]

/-- Concrete database for the confirm-once property: one eligible voter
REG001 with a single fresh verification whose hash matches code 123456. -/
def exC3db : DB :=
  { voters := [{ id := 1, regNo := "REG001", name := "A",
                 email := some "a@x.test", phone := some "100", status := "ELIGIBLE" }]
    verifications := [{ id := 1, voterId := 1, method := "both",
                        otpHash := bcryptHash "123456", issuedAt := 0,
                        expiresAt := 300000, verifiedAt := none,
                        ballotToken := none, consumedAt := none }]
    ballots := []
    positions := []
    candidates := []
    votes := [] }

/-- Closed instance of `confirmOTP_succeeds_exactly_once`: confirm at instant
10, confirm again at instant 20. -/
theorem confirmOTP_succeeds_exactly_once_witness :
    (confirmOTP exC3db (some "REG001") (some "123456") 10 "BT" 1).1 = .success "BT" ∧
    confirmOTP (confirmOTP exC3db (some "REG001") (some "123456") 10 "BT" 1).2
        (some "REG001") (some "123456") 20 "BT2" 2 =
      (.noValidOTP, (confirmOTP exC3db (some "REG001") (some "123456") 10 "BT" 1).2) := by
  have h := confirmOTP_succeeds_exactly_once exC3db "REG001" "123456"
    { id := 1, regNo := "REG001", name := "A",
      email := some "a@x.test", phone := some "100", status := "ELIGIBLE" }
    { id := 1, voterId := 1, method := "both",
      otpHash := bcryptHash "123456", issuedAt := 0,
      expiresAt := 300000, verifiedAt := none,
      ballotToken := none, consumedAt := none }
    10 20 "BT" "BT2" 1 2 (by decide) (by decide) (by decide) (by decide) (by decide)
    (by decide) (by decide)
  exact ⟨h.1, h.2.2.1⟩

/-- C6: with one previous unverified OTP request on record, a new request made
t seconds later with t < 60 is refused with 429 and `retryAfter` equal to the
remaining 60 - t seconds (so two requests 10 seconds apart yield retryAfter
50), while a request 61 seconds later passes the cooldown and succeeds,
creating a fresh verification. -/
theorem requestOTP_cooldown (db : DB) (rn otp : String) (voter : EligibleVoter)
    (rec : Verification) (nid : Nat)
    (hrn : rn.isEmpty = false)
    (hv : db.voters.find? (fun x => x.regNo == toUpperCase rn) = some voter)
    (he : voter.status = "ELIGIBLE")
    (hnob : ∀ b ∈ db.ballots, ¬(b.voterId = voter.id ∧ b.status = "CONSUMED"))
    (hrec : rec ∈ db.verifications) (hrecV : rec.voterId = voter.id)
    (hrecU : rec.verifiedAt = none)
    (honly : ∀ w ∈ db.verifications, w.voterId = voter.id → w = rec)
    (hemail : isFalsy voter.email = false) (hphone : isFalsy voter.phone = false) :
    (∀ t : Nat, t < 60 →
      requestOTP db (some rn) (rec.issuedAt + 1000 * (t : Int)) otp nid =
        (.rateLimited (60 - t), db)) ∧
    requestOTP db (some rn) (rec.issuedAt + 10000) otp nid = (.rateLimited 50, db) ∧
    requestOTP db (some rn) (rec.issuedAt + 61000) otp nid =
      (.success 300,
        { db with verifications := db.verifications ++
            [{ id := nid, voterId := voter.id, method := "both",
               otpHash := bcryptHash otp, issuedAt := rec.issuedAt + 61000,
               expiresAt := rec.issuedAt + 61000 + 300000, verifiedAt := none,
               ballotToken := none, consumedAt := none }] }) ∧
    OTPResponse.statusCode (.rateLimited 50) = 429 := by
  have hfindnone : db.ballots.find?
      (fun x => x.voterId == voter.id && x.status == "CONSUMED") = none := by
    rw [List.find?_eq_none]
    intro x hx
    simp only [Bool.and_eq_true, beq_iff_eq, not_and]
    intro h1 h2
    exact hnob x hx ⟨h1, h2⟩
  have hmain : ∀ t : Nat, t ≤ 60 →
      requestOTP db (some rn) (rec.issuedAt + 1000 * (t : Int)) otp nid =
        (.rateLimited ((60000 - 1000 * t + 999) / 1000), db) := by
    intro t ht
    have hlook : findLatestVerification
        (rateFilter voter.id (rec.issuedAt + 1000 * (t : Int))) db.verifications = some rec := by
      apply findLatestVerification_unique _ _ rec hrec
      · simp only [rateFilter, hrecV, hrecU, Option.isNone_none, Bool.and_true, beq_self_eq_true,
          Bool.true_and]
        have : rec.issuedAt ≥ rec.issuedAt + 1000 * (t : Int) - 60000 := by omega
        simp [this]
      · intro w hw hwp
        have hwv : w.voterId = voter.id := by
          simp only [rateFilter, Bool.and_eq_true, beq_iff_eq] at hwp
          exact hwp.1.1
        exact honly w hw hwv
    have harith : ((60000 - (rec.issuedAt + 1000 * (t : Int) - rec.issuedAt)).toNat + 999) / 1000
        = (60000 - 1000 * t + 999) / 1000 := by omega
    simp only [requestOTP, hrn, Bool.false_eq_true, if_false, hv, he, ne_eq,
      not_true_eq_false, if_false, hfindnone, Option.isSome_none, hlook, harith]
  refine ⟨fun t ht => ?_, ?_, ?_, rfl⟩
  · have h := hmain t (by omega)
    have : (60000 - 1000 * t + 999) / 1000 = 60 - t := by omega
    rwa [this] at h
  · have h := hmain 10 (by omega)
    norm_num at h
    exact h
  · have hlooknone : findLatestVerification
        (rateFilter voter.id (rec.issuedAt + 61000)) db.verifications = none := by
      apply findLatestVerification_eq_none
      intro w hw
      by_cases hwv : w.voterId = voter.id
      · have hwrec : w = rec := honly w hw hwv
        subst hwrec
        have : ¬ (w.issuedAt ≥ w.issuedAt + 61000 - 60000) := by omega
        simp [rateFilter, this]
      · simp [rateFilter, hwv]
    simp only [requestOTP, hrn, Bool.false_eq_true, if_false, hv, he, ne_eq,
      not_true_eq_false, if_false, hfindnone, Option.isSome_none, hlooknone, hemail, hphone]

/-- Concrete database for the cooldown property: one eligible voter REG001
with one unverified verification issued at instant 0. -/
def exC6db : DB :=
  { voters := [{ id := 1, regNo := "REG001", name := "A",
                 email := some "a@x.test", phone := some "100", status := "ELIGIBLE" }]
    verifications := [{ id := 1, voterId := 1, method := "both",
                        otpHash := bcryptHash "123456", issuedAt := 0,
                        expiresAt := 300000, verifiedAt := none,
                        ballotToken := none, consumedAt := none }]
    ballots := []
    positions := []
    candidates := []
    votes := [] }

/-- Closed instance of `requestOTP_cooldown`: a second request 10 seconds
after the first is refused with retryAfter 50; a request 61 seconds after is
accepted. -/
theorem requestOTP_cooldown_witness :
    requestOTP exC6db (some "REG001") 10000 "654321" 2 = (.rateLimited 50, exC6db) ∧
    (requestOTP exC6db (some "REG001") 61000 "654321" 2).1 = .success 300 := by
  have h := requestOTP_cooldown exC6db "REG001" "654321"
    { id := 1, regNo := "REG001", name := "A",
      email := some "a@x.test", phone := some "100", status := "ELIGIBLE" }
    { id := 1, voterId := 1, method := "both",
      otpHash := bcryptHash "123456", issuedAt := 0,
      expiresAt := 300000, verifiedAt := none,
      ballotToken := none, consumedAt := none }
    2 (by decide) (by decide) (by decide) (by decide) (by decide)
    (by decide) (by decide) (by decide) (by decide) (by decide)
  exact ⟨h.2.1, congrArg Prod.fst h.2.2.1⟩

/-- C9: for an eligible voter whose record lacks an email address or a phone
number, `requestOTP` leaves the persistent state unchanged and never succeeds;
on the direct path — no consumed ballot and no rate-limit hit, which would
each produce their own 4xx rejection first — the response is exactly the 400
"Voter email not found" / "Voter phone number not found" error, and no
Verification record is created. -/
theorem requestOTP_missing_contact (db : DB) (rn otp : String)
    (voter : EligibleVoter) (now : Int) (nid : Nat)
    (hrn : rn.isEmpty = false)
    (hv : db.voters.find? (fun x => x.regNo == toUpperCase rn) = some voter)
    (he : voter.status = "ELIGIBLE")
    (hmiss : isFalsy voter.email = true ∨ isFalsy voter.phone = true) :
    (requestOTP db (some rn) now otp nid).2 = db ∧
    (∀ k, (requestOTP db (some rn) now otp nid).1 ≠ .success k) ∧
    ((∀ b ∈ db.ballots, ¬(b.voterId = voter.id ∧ b.status = "CONSUMED")) →
      (∀ w ∈ db.verifications, rateFilter voter.id now w = false) →
      requestOTP db (some rn) now otp nid =
        (if isFalsy voter.email then .emailMissing else .phoneMissing, db)) ∧
    OTPResponse.statusCode .emailMissing = 400 ∧
    OTPResponse.statusCode .phoneMissing = 400 := by
  simp only [requestOTP, hrn, Bool.false_eq_true, if_false, hv, he, ne_eq,
    not_true_eq_false, if_false]
  by_cases hb : (db.ballots.find?
      (fun b => b.voterId == voter.id && b.status == "CONSUMED")).isSome = true
  · simp only [hb, if_true]
    refine ⟨by trivial, by simp, ?_, by trivial, by trivial⟩
    intro hnob _
    exfalso
    rw [List.find?_isSome] at hb
    rcases hb with ⟨x, hx, hpx⟩
    simp only [Bool.and_eq_true, beq_iff_eq] at hpx
    exact hnob x hx ⟨hpx.1, hpx.2⟩
  · simp only [Bool.not_eq_true] at hb
    simp only [hb, Bool.false_eq_true, if_false]
    cases hfl : findLatestVerification (rateFilter voter.id now) db.verifications with
    | some rec =>
      simp only [hfl]
      refine ⟨by trivial, by simp, ?_, by trivial, by trivial⟩
      intro _ hnr
      exact absurd hfl (by rw [findLatestVerification_eq_none _ _ hnr]; simp)
    | none =>
      simp only [hfl]
      by_cases hme : isFalsy voter.email = true
      · simp only [hme, if_true]
        exact ⟨by trivial, by simp, fun _ _ => by trivial, by trivial, by trivial⟩
      · have hmp : isFalsy voter.phone = true := hmiss.resolve_left hme
        simp only [Bool.not_eq_true] at hme
        simp only [hme, Bool.false_eq_true, if_false, hmp, if_true]
        exact ⟨by trivial, by simp, fun _ _ => by trivial, by trivial, by trivial⟩

/-- Closed instance of `requestOTP_missing_contact`: an eligible voter with no
email on record. -/
theorem requestOTP_missing_contact_witness :
    requestOTP
      { voters := [{ id := 1, regNo := "REG002", name := "B",
                     email := none, phone := some "100", status := "ELIGIBLE" }],
        verifications := [], ballots := [], positions := [], candidates := [], votes := [] }
      (some "REG002") 0 "123456" 1 =
    (.emailMissing,
      { voters := [{ id := 1, regNo := "REG002", name := "B",
                     email := none, phone := some "100", status := "ELIGIBLE" }],
        verifications := [], ballots := [], positions := [], candidates := [], votes := [] }) := by
  have h := requestOTP_missing_contact
    { voters := [{ id := 1, regNo := "REG002", name := "B",
                   email := none, phone := some "100", status := "ELIGIBLE" }],
      verifications := [], ballots := [], positions := [], candidates := [], votes := [] }
    "REG002" "123456"
    { id := 1, regNo := "REG002", name := "B",
      email := none, phone := some "100", status := "ELIGIBLE" }
    0 1 (by decide) (by decide) (by decide) (Or.inl (by decide))
  have h3 := h.2.2.1 (by decide) (by decide)
  simpa using h3

/-- C10: for an existing eligible voter, the "already voted" rejection of
`requestOTP` fires exactly when some ballot of the voter has status CONSUMED;
the rate-limit lookup filter is precisely "same voter, issued in the last 60
seconds, `verifiedAt` unset"; and neither `requestOTP` nor `confirmOTP`
inspects ACTIVE ballots: adding an ACTIVE ballot to the state changes neither
the response nor the verifications `requestOTP` leaves behind, nor the
response of `confirmOTP`. -/
theorem requestOTP_already_voted_characterization (db : DB) (rn otp : String)
    (voter : EligibleVoter) (now : Int) (nid : Nat)
    (hrn : rn.isEmpty = false)
    (hv : db.voters.find? (fun x => x.regNo == toUpperCase rn) = some voter)
    (he : voter.status = "ELIGIBLE") :
    ((requestOTP db (some rn) now otp nid).1 = .alreadyVoted ↔
      ∃ b ∈ db.ballots, b.voterId = voter.id ∧ b.status = "CONSUMED") ∧
    (∀ w, rateFilter voter.id now w = true ↔
      (w.voterId = voter.id ∧ now - 60000 ≤ w.issuedAt ∧ w.verifiedAt = none)) ∧
    (∀ b2 : Ballot, b2.status = "ACTIVE" →
      (requestOTP { db with ballots := b2 :: db.ballots } (some rn) now otp nid).1 =
        (requestOTP db (some rn) now otp nid).1 ∧
      (requestOTP { db with ballots := b2 :: db.ballots } (some rn) now otp nid).2.verifications =
        (requestOTP db (some rn) now otp nid).2.verifications) ∧
    (∀ (b2 : Ballot) (code : String) (now2 : Int) (tok : String) (bid : Nat),
      b2.status = "ACTIVE" →
      (confirmOTP { db with ballots := b2 :: db.ballots } (some rn) (some code) now2 tok bid).1 =
        (confirmOTP db (some rn) (some code) now2 tok bid).1) := by
  refine ⟨?_, ?_, ?_, ?_⟩
  · by_cases hb : (db.ballots.find?
        (fun b => b.voterId == voter.id && b.status == "CONSUMED")).isSome = true
    · constructor
      · intro _
        rw [List.find?_isSome] at hb
        rcases hb with ⟨x, hx, hpx⟩
        simp only [Bool.and_eq_true, beq_iff_eq] at hpx
        exact ⟨x, hx, hpx.1, hpx.2⟩
      · intro _
        simp [requestOTP, hrn, hv, he, hb]
    · constructor
      · intro hcontra
        exfalso
        simp only [Bool.not_eq_true] at hb
        simp only [requestOTP, hrn, Bool.false_eq_true, if_false, hv, he, ne_eq,
          not_true_eq_false, if_false, hb] at hcontra
        cases hfl : findLatestVerification (rateFilter voter.id now) db.verifications with
        | some rec => rw [hfl] at hcontra; simp at hcontra
        | none =>
          rw [hfl] at hcontra
          by_cases hme : isFalsy voter.email = true
          · simp [hme] at hcontra
          · simp only [Bool.not_eq_true] at hme
            by_cases hmp : isFalsy voter.phone = true
            · simp [hme, hmp] at hcontra
            · simp only [Bool.not_eq_true] at hmp
              simp [hme, hmp] at hcontra
      · intro ⟨x, hx, h1, h2⟩
        exfalso
        apply hb
        rw [List.find?_isSome]
        exact ⟨x, hx, by simp [h1, h2]⟩
  · intro w
    simp [rateFilter, Bool.and_eq_true, beq_iff_eq, ge_iff_le,
      Option.isNone_iff_eq_none, and_assoc]
  · intro b2 hb2
    have hcons : (b2 :: db.ballots).find?
        (fun b => b.voterId == voter.id && b.status == "CONSUMED")
        = db.ballots.find? (fun b => b.voterId == voter.id && b.status == "CONSUMED") := by
      rw [List.find?_cons_of_neg]
      simp [hb2]
    simp only [requestOTP, hrn, Bool.false_eq_true, if_false, hv, he, ne_eq,
      not_true_eq_false, if_false, hcons]
    by_cases hc : (db.ballots.find?
        (fun b => b.voterId == voter.id && b.status == "CONSUMED")).isSome = true
    · simp [hc]
    · simp only [Bool.not_eq_true] at hc
      simp only [hc, Bool.false_eq_true, if_false]
      cases hfl : findLatestVerification (rateFilter voter.id now) db.verifications with
      | some rec => simp [hfl]
      | none =>
        simp only [hfl]
        by_cases hme : isFalsy voter.email = true
        · simp [hme]
        · simp only [Bool.not_eq_true] at hme
          simp only [hme, Bool.false_eq_true, if_false]
          by_cases hmp : isFalsy voter.phone = true
          · simp [hmp]
          · simp only [Bool.not_eq_true] at hmp
            simp [hmp]
  · intro b2 code now2 tok bid hb2
    have hcons : (b2 :: db.ballots).find?
        (fun b => b.voterId == voter.id && b.status == "CONSUMED")
        = db.ballots.find? (fun b => b.voterId == voter.id && b.status == "CONSUMED") := by
      rw [List.find?_cons_of_neg]
      simp [hb2]
    by_cases h1 : (rn.isEmpty || code.isEmpty) = true
    · simp [confirmOTP, h1]
    · simp only [Bool.not_eq_true] at h1
      simp only [confirmOTP, h1, Bool.false_eq_true, if_false, hv, hcons]
      cases hfl : findLatestVerification (confirmFilter voter.id now2) db.verifications with
      | none => simp [hfl]
      | some verification =>
        simp only [hfl]
        by_cases h2 : bcryptCompare code verification.otpHash = true
        · simp only [h2, Bool.not_true, Bool.false_eq_true, if_false]
          by_cases hc : (db.ballots.find?
              (fun b => b.voterId == voter.id && b.status == "CONSUMED")).isSome = true
          · simp [hc]
          · simp only [Bool.not_eq_true] at hc
            simp [hc]
        · simp only [Bool.not_eq_true] at h2
          simp [h2]

/-- Concrete database for the already-voted characterization: eligible voter
REG001 holding one CONSUMED ballot. -/
def exC10db : DB :=
  { voters := [{ id := 1, regNo := "REG001", name := "A",
                 email := some "a@x.test", phone := some "100", status := "ELIGIBLE" }]
    verifications := []
    ballots := [{ id := 1, voterId := 1, token := "W", status := "CONSUMED",
                  issuedAt := 0, consumedAt := some 5 }]
    positions := []
    candidates := []
    votes := [] }

/-- Closed instance of `requestOTP_already_voted_characterization`. -/
theorem requestOTP_already_voted_characterization_witness :
    (requestOTP exC10db (some "REG001") 0 "123456" 3).1 = .alreadyVoted ↔
      ∃ b ∈ exC10db.ballots, b.voterId = 1 ∧ b.status = "CONSUMED" :=
  (requestOTP_already_voted_characterization exC10db "REG001" "123456"
    { id := 1, regNo := "REG001", name := "A",
      email := some "a@x.test", phone := some "100", status := "ELIGIBLE" }
    0 3 (by decide) (by decide) (by decide)).1

/-- Auxiliary: a successful `castVote` validation resolves the submitted token
to exactly the returned ballot. -/
theorem castVoteValidate_ok_inv (db : DB) (token : Option String)
    (votes : List Selection) (now : Int) (b : Ballot)
    (h : castVoteValidate db token votes now = .ok b) :
    ∃ tok, token = some tok ∧ db.ballots.find? (fun x => x.token == tok) = some b := by
  cases token with
  | none => simp [castVoteValidate] at h
  | some tok =>
    refine ⟨tok, rfl, ?_⟩
    simp only [castVoteValidate] at h
    by_cases h1 : tok.isEmpty = true
    · simp [h1] at h
    · simp only [Bool.not_eq_true] at h1
      simp only [h1, Bool.false_eq_true, if_false] at h
      by_cases h2 : votes.isEmpty = true
      · simp [h2] at h
      · simp only [Bool.not_eq_true] at h2
        simp only [h2, Bool.false_eq_true, if_false] at h
        cases hfind : db.ballots.find? (fun x => x.token == tok) with
        | none => rw [hfind] at h; simp at h
        | some ballot =>
          rw [hfind] at h
          dsimp only at h
          by_cases hst : (ballot.status == "CONSUMED") = true
          · rw [if_pos hst] at h
            simp at h
          · rw [if_neg hst] at h
            split_ifs at h
            simp_all

/-- C7: every Vote row present after a `castVote` call either predates the
call or is one of the rows `mkVoteRows` builds from the id of the resolved ballot,
the selected position and candidate ids, and the cast timestamp — nothing
else.  The `Vote` structure mirrors the votes table, which has no
voter-identifying column: a human is reachable from a vote only through the
ballots table via `Vote.ballotId`. -/
theorem castVote_rows_carry_no_voter_identity (db : DB) (token : Option String)
    (votes : List Selection) (now : Int) (fid : Nat) :
    (castVote db token votes now fid).2.votes = db.votes ∨
    ∃ tok b, token = some tok ∧
      db.ballots.find? (fun x => x.token == tok) = some b ∧
      (castVote db token votes now fid).2.votes =
        db.votes ++ mkVoteRows b.id votes now fid := by
  unfold castVote
  cases hval : castVoteValidate db token votes now with
  | error r => exact Or.inl rfl
  | ok b =>
    right
    rcases castVoteValidate_ok_inv db token votes now b hval with ⟨tok, rfl, hfind⟩
    exact ⟨tok, b, rfl, hfind, rfl⟩
